import Mathlib

/-!
Verification of `src/trace_utils.py`: a logging shim over an httpx async
transport.  We give a shallow embedding of `LoggingTransport.__init__`,
`LoggingTransport.handle_async_request`, `LoggingAsyncClient.__init__`, and
`async_clients`, together with an executable model of the Python `bytes.decode`
codec behaviour the source relies on (strict UTF-8 on line 37, replacement-mode
decoding on line 47).

Python strings are modelled as lists of Unicode code points (`List Nat`);
bytes as `List Nat` (each element intended < 256); header collections as
association lists `List (String × String)`.
-/

namespace TraceUtils

/-- A continuation byte of a UTF-8 multi-byte sequence: `0x80 ≤ b ≤ 0xBF`. -/
def isCont (b : Nat) : Bool := 0x80 ≤ b && b ≤ 0xBF

/-- Lower bound for the first continuation byte of a 3-byte sequence
(`0xA0` after `0xE0`, which excludes overlong forms). -/
def cont1Lo3 (b : Nat) : Nat := if b = 0xE0 then 0xA0 else 0x80

/-- Upper bound for the first continuation byte of a 3-byte sequence
(`0x9F` after `0xED`, which excludes surrogates). -/
def cont1Hi3 (b : Nat) : Nat := if b = 0xED then 0x9F else 0xBF

/-- Lower bound for the first continuation byte of a 4-byte sequence
(`0x90` after `0xF0`, which excludes overlong forms). -/
def cont1Lo4 (b : Nat) : Nat := if b = 0xF0 then 0x90 else 0x80

/-- Upper bound for the first continuation byte of a 4-byte sequence
(`0x8F` after `0xF4`, which caps code points at `U+10FFFF`). -/
def cont1Hi4 (b : Nat) : Nat := if b = 0xF4 then 0x8F else 0xBF

/-- Model of Python `bytes.decode("utf-8")` in its default strict mode, as used
on line 37 of the source: returns the decoded code points, or `none` when the
byte list is not well-formed UTF-8 (where CPython raises `UnicodeDecodeError`).
Rejects overlong encodings, surrogates, code points above `U+10FFFF`, stray
continuation bytes and truncated sequences. -/
def utf8DecodeStrict : List Nat → Option (List Nat)
  | [] => some []
  | b :: rest =>
    if b ≤ 0x7F then
      (utf8DecodeStrict rest).map (fun cs => b :: cs)
    else if 0xC2 ≤ b && b ≤ 0xDF then
      match rest with
      | c1 :: r =>
        if isCont c1 then
          (utf8DecodeStrict r).map (fun cs => ((b - 0xC0) * 0x40 + (c1 - 0x80)) :: cs)
        else none
      | [] => none
    else if 0xE0 ≤ b && b ≤ 0xEF then
      match rest with
      | c1 :: r1 =>
        if cont1Lo3 b ≤ c1 && c1 ≤ cont1Hi3 b then
          match r1 with
          | c2 :: r2 =>
            if isCont c2 then
              (utf8DecodeStrict r2).map
                (fun cs => ((b - 0xE0) * 0x1000 + (c1 - 0x80) * 0x40 + (c2 - 0x80)) :: cs)
            else none
          | [] => none
        else none
      | [] => none
    else if 0xF0 ≤ b && b ≤ 0xF4 then
      match rest with
      | c1 :: r1 =>
        if cont1Lo4 b ≤ c1 && c1 ≤ cont1Hi4 b then
          match r1 with
          | c2 :: r2 =>
            if isCont c2 then
              match r2 with
              | c3 :: r3 =>
                if isCont c3 then
                  (utf8DecodeStrict r3).map
                    (fun cs => ((b - 0xF0) * 0x40000 + (c1 - 0x80) * 0x1000
                                  + (c2 - 0x80) * 0x40 + (c3 - 0x80)) :: cs)
                else none
              | [] => none
            else none
          | [] => none
        else none
      | [] => none
    else none

/-- The Unicode replacement character `U+FFFD`, substituted by Python for each
maximal ill-formed subpart when decoding with `errors="replace"`. -/
def replacementChar : Nat := 0xFFFD

/-- Model of Python `bytes.decode(enc, errors="replace")` for UTF-8, as used on
line 47 of the source: total; each maximal ill-formed subpart of the input is
replaced by `U+FFFD`, following CPython (W3C/WHATWG practice). -/
def utf8DecodeReplace : List Nat → List Nat
  | [] => []
  | b :: rest =>
    if b ≤ 0x7F then b :: utf8DecodeReplace rest
    else if 0xC2 ≤ b && b ≤ 0xDF then
      match rest with
      | c1 :: r =>
        if isCont c1 then ((b - 0xC0) * 0x40 + (c1 - 0x80)) :: utf8DecodeReplace r
        else replacementChar :: utf8DecodeReplace (c1 :: r)
      | [] => [replacementChar]
    else if 0xE0 ≤ b && b ≤ 0xEF then
      match rest with
      | c1 :: r1 =>
        if cont1Lo3 b ≤ c1 && c1 ≤ cont1Hi3 b then
          match r1 with
          | c2 :: r2 =>
            if isCont c2 then
              ((b - 0xE0) * 0x1000 + (c1 - 0x80) * 0x40 + (c2 - 0x80)) :: utf8DecodeReplace r2
            else replacementChar :: utf8DecodeReplace (c2 :: r2)
          | [] => [replacementChar]
        else replacementChar :: utf8DecodeReplace (c1 :: r1)
      | [] => [replacementChar]
    else if 0xF0 ≤ b && b ≤ 0xF4 then
      match rest with
      | c1 :: r1 =>
        if cont1Lo4 b ≤ c1 && c1 ≤ cont1Hi4 b then
          match r1 with
          | c2 :: r2 =>
            if isCont c2 then
              match r2 with
              | c3 :: r3 =>
                if isCont c3 then
                  ((b - 0xF0) * 0x40000 + (c1 - 0x80) * 0x1000
                      + (c2 - 0x80) * 0x40 + (c3 - 0x80)) :: utf8DecodeReplace r3
                else replacementChar :: utf8DecodeReplace (c3 :: r3)
              | [] => [replacementChar]
            else replacementChar :: utf8DecodeReplace (c2 :: r2)
          | [] => [replacementChar]
        else replacementChar :: utf8DecodeReplace (c1 :: r1)
      | [] => [replacementChar]
    else replacementChar :: utf8DecodeReplace rest

/-- The character encodings a response may declare (`response.encoding` in
httpx comes from the `charset` of the `Content-Type` header).  We model the two
codecs needed to exercise the source's `response.encoding or "utf-8"` logic:
UTF-8 and Latin-1 (in which every byte decodes to the same code point and no
byte is ill-formed). -/
inductive Encoding where
  | utf8
  | latin1
deriving DecidableEq, Repr

/-- Model of Python `raw.decode(enc, errors="replace")` (line 47 of the
source): total for every encoding modelled. -/
def decodeReplace : Encoding → List Nat → List Nat
  | Encoding.utf8, bs => utf8DecodeReplace bs
  | Encoding.latin1, bs => bs

/-- Model of Python `str.lower()`, as applied to header names by `k.lower()`
on line 52 (ASCII case mapping, which covers HTTP header names). -/
def pyLower (s : String) : String := String.mk (s.data.map Char.toLower)

/-- One step of building a Python `dict` from a pair list: overwrite the value
of an existing key in place, otherwise append the new entry.  `dict(...)` is
used for `dict(request.headers)` (line 36), `dict(response.headers)` (line 46)
and the dict comprehension on line 52. -/
def dictInsert (acc : List (String × String)) (kv : String × String) :
    List (String × String) :=
  if acc.any (fun q => q.1 == kv.1) then
    acc.map (fun q => if q.1 == kv.1 then (q.1, kv.2) else q)
  else acc ++ [kv]

/-- Model of Python `dict(pairs)` as the left fold of single-entry insertion:
one entry per distinct key; a key keeps the position of its first occurrence
and the value of its last occurrence. -/
def dictOf (l : List (String × String)) : List (String × String) :=
  l.foldl dictInsert []

/-- An outbound `httpx.Request`: URL, headers and body bytes.  In httpx
`request.content` is `b""` both when no body was supplied and when an empty
body was supplied, so one field covers both. -/
structure Request where
  url : String
  headers : List (String × String)
  content : List Nat
deriving DecidableEq, Repr

/-- The inner transport's `httpx.Response` as seen by the shim: status code,
headers, the bytes produced by `await response.aread()` (line 45), the declared
encoding (`response.encoding`, `none` when no charset is declared) and the
`extensions` mapping. -/
structure InnerResponse where
  status_code : Nat
  headers : List (String × String)
  body : List Nat
  encoding : Option Encoding
  extensions : List (String × String)
deriving DecidableEq, Repr

/-- The `httpx.Response` re-emitted by the shim (constructed on lines 54-60):
it additionally carries the request reference passed as `request=request`. -/
structure Response where
  status_code : Nat
  headers : List (String × String)
  body : List Nat
  req : Request
  extensions : List (String × String)
deriving DecidableEq, Repr

/-- The four captured fields of a `LoggingTransport` (lines 29-32). -/
structure TransportState where
  request_headers : List (String × String)
  request_content : Option (List Nat)
  response_headers : List (String × String)
  response_content : Option (List Nat)
deriving DecidableEq, Repr

/-- `LoggingTransport.__init__` (lines 29-32): all four captured fields start
empty/absent. -/
def TransportState.init : TransportState :=
  { request_headers := [], request_content := none,
    response_headers := [], response_content := none }

/-- Model of line 37's expression
`request.content.decode("utf-8") if request.content else None`:
`b""` is falsy, so an absent or empty body yields `None`; a non-empty body is
decoded with the strict UTF-8 codec, which may raise (modelled as `.error`). -/
def decodedRequestContent (content : List Nat) : Except Unit (Option (List Nat)) :=
  if content = [] then Except.ok none
  else
    match utf8DecodeStrict content with
    | some s => Except.ok (some s)
    | none => Except.error ()

/-- The ways `handle_async_request` can fail: a `UnicodeDecodeError` raised by
line 37's strict decode, or an exception propagated from the inner transport's
`handle_async_request` (line 43), carried unchanged. -/
inductive DispatchError where
  | unicodeDecodeError
  | innerError (e : String)
deriving DecidableEq, Repr

/-- `LoggingTransport.handle_async_request` (lines 35-60).  The inner transport
is a function from requests to either an exception (modelled as a `String`
message) or a response.  The result pairs the transport's captured state after
the call with either the propagated exception or the re-emitted response.
State fields updated before a raise keep their new values; the rest keep their
old ones, mirroring the Python instance-attribute mutation order. -/
def handle_async_request (inner : Request → Except String InnerResponse)
    (self : TransportState) (request : Request) :
    TransportState × Except DispatchError Response :=
  let self := { self with request_headers := dictOf request.headers }
  match decodedRequestContent request.content with
  | Except.error _ => (self, Except.error DispatchError.unicodeDecodeError)
  | Except.ok rc =>
    let self := { self with request_content := rc }
    match inner request with
    | Except.error e => (self, Except.error (DispatchError.innerError e))
    | Except.ok response =>
      let raw_response_bytes := response.body
      let self := { self with response_headers := dictOf response.headers }
      let self := { self with
        response_content :=
          some (decodeReplace (response.encoding.getD Encoding.utf8) raw_response_bytes) }
      let headers_without_encoding :=
        dictOf (response.headers.filter (fun p => pyLower p.1 != "content-encoding"))
      (self,
        Except.ok
          { status_code := response.status_code
            headers := headers_without_encoding
            body := raw_response_bytes
            req := request
            extensions := response.extensions })

/-- `LoggingAsyncClient` (lines 62-82): holds its `LoggingTransport`; the four
read-only properties forward to the transport's captured fields. -/
structure LoggingAsyncClient where
  logging_transport : TransportState
deriving DecidableEq, Repr

/-- `LoggingAsyncClient.__init__` (lines 63-66): installs a fresh
`LoggingTransport` wrapping the caller-supplied or default inner transport
(the wrapped inner transport carries no captured state of its own, so only the
fresh `LoggingTransport` state appears here). -/
def LoggingAsyncClient.new : LoggingAsyncClient :=
  { logging_transport := TransportState.init }

/-- The `AsyncAzureOpenAI` SDK client as configured by `async_clients`
(lines 99-104): the four constructor arguments actually passed. -/
structure AsyncAzureOpenAI where
  azure_endpoint : String
  api_key : String
  api_version : String
  http_client : LoggingAsyncClient
deriving DecidableEq, Repr

/-- `async_clients` (lines 85-105): despite the declared
`AsyncGenerator[...]` annotation, the body is a plain synchronous function
(no `yield`, no `async`): it constructs a `LoggingAsyncClient`, an SDK client
using it as `http_client`, and returns the pair eagerly. -/
def async_clients (endpoint : String) (key : String) (api_version : String) :
    AsyncAzureOpenAI × LoggingAsyncClient :=
  let logging_async_client := LoggingAsyncClient.new
  let client : AsyncAzureOpenAI :=
    { azure_endpoint := endpoint, api_key := key, api_version := api_version,
      http_client := logging_async_client }
  (client, logging_async_client)

/-! ### Concrete fixtures -/

/-- A request with the two-byte ASCII body `"hi"`. -/
def sampleRequest : Request :=
  { url := "https://example.test/v1/chat"
    headers := [("Accept", "application/json")]
    content := [104, 105] }

/-- A request with no body (`request.content == b""`). -/
def emptyBodyRequest : Request :=
  { url := "https://example.test/v1/chat"
    headers := [("Accept", "application/json")]
    content := [] }

/-- A request whose body `0xFF` is not well-formed UTF-8. -/
def badUtf8Request : Request :=
  { url := "https://example.test/v1/chat"
    headers := [("Accept", "application/json")]
    content := [255] }

/-- An inner response carrying a capitalised `Content-Encoding` header and the
body `"hello"`, as in the spec's scenario. -/
def sampleInnerResponse : InnerResponse :=
  { status_code := 200
    headers := [("Content-Encoding", "gzip"), ("x-id", "42")]
    body := [104, 101, 108, 108, 111]
    encoding := none
    extensions := [("http_version", "HTTP/1.1")] }

/-- An inner transport that always succeeds with `sampleInnerResponse`. -/
def okInner : Request → Except String InnerResponse :=
  fun _ => Except.ok sampleInnerResponse

/-- An inner transport that always fails. -/
def errInner : Request → Except String InnerResponse :=
  fun _ => Except.error "connection failed"

/-- An inner transport that agrees with `errInner` on bodiless requests but
behaves differently elsewhere. -/
def errInner2 : Request → Except String InnerResponse :=
  fun r =>
    if r.content = [] then Except.error "connection failed"
    else Except.ok sampleInnerResponse

/-- The captured state after dispatching `sampleRequest` through `okInner`. -/
def sampleFinalState : TransportState :=
  { request_headers := [("Accept", "application/json")]
    request_content := some [104, 105]
    response_headers := [("Content-Encoding", "gzip"), ("x-id", "42")]
    response_content := some [104, 101, 108, 108, 111] }

/-- The response re-emitted for `sampleRequest` through `okInner`: the
`Content-Encoding` header is gone, everything else is as in
`sampleInnerResponse`. -/
def sampleReemitted : Response :=
  { status_code := 200
    headers := [("x-id", "42")]
    body := [104, 101, 108, 108, 111]
    req := sampleRequest
    extensions := [("http_version", "HTTP/1.1")] }

/-- A transport state left over from some earlier exchange. -/
def dirtyState : TransportState :=
  { request_headers := [("old-req-header", "a")]
    request_content := some [1]
    response_headers := [("old-resp-header", "b")]
    response_content := some [2] }

/-! ### Helper lemmas -/

/-- Every entry of `dictInsert acc kv` takes its key from `acc` or from `kv`. -/
theorem mem_dictInsert_key {p kv : String × String} {acc : List (String × String)}
    (h : p ∈ dictInsert acc kv) : (∃ q ∈ acc, q.1 = p.1) ∨ p.1 = kv.1 := by
  unfold dictInsert at h
  split at h
  · rcases List.mem_map.mp h with ⟨q, hq, hmap⟩
    left
    refine ⟨q, hq, ?_⟩
    by_cases hk : q.1 == kv.1
    · simp only [hk, if_pos] at hmap
      rw [← hmap]
    · simp only [hk, if_neg, Bool.false_eq_true, not_false_eq_true] at hmap
      rw [hmap]
  · rcases List.mem_append.mp h with h | h
    · exact Or.inl ⟨p, h, rfl⟩
    · right
      rw [List.mem_singleton.mp h]

/-- Every entry of a `dictInsert` fold takes its key from the accumulator or
from the list. -/
theorem mem_foldl_dictInsert_key {p : String × String} :
    ∀ {l acc : List (String × String)}, p ∈ l.foldl dictInsert acc →
      (∃ q ∈ acc, q.1 = p.1) ∨ ∃ q ∈ l, q.1 = p.1 := by
  intro l
  induction l with
  | nil => intro acc h; exact Or.inl ⟨p, h, rfl⟩
  | cons kv rest ih =>
    intro acc h
    rcases ih h with h' | h'
    · rcases h' with ⟨q, hq, hkey⟩
      rcases mem_dictInsert_key hq with ⟨r, hr, hrkey⟩ | hkv
      · exact Or.inl ⟨r, hr, hrkey.trans hkey⟩
      · exact Or.inr ⟨kv, List.mem_cons_self _ _, hkv ▸ hkey⟩
    · rcases h' with ⟨q, hq, hkey⟩
      exact Or.inr ⟨q, List.mem_cons_of_mem _ hq, hkey⟩

/-- Every entry of `dictOf l` takes its key from some entry of `l`. -/
theorem mem_dictOf_key {p : String × String} {l : List (String × String)}
    (h : p ∈ dictOf l) : ∃ q ∈ l, q.1 = p.1 := by
  rcases mem_foldl_dictInsert_key h with ⟨q, hq, -⟩ | h'
  · simp at hq
  · exact h'

/-- Characterisation of line 37's failure: the strict decode raises exactly
when the body is non-empty and is not well-formed UTF-8. -/
theorem decodedRequestContent_error_iff {content : List Nat} :
    (∃ e, decodedRequestContent content = Except.error e) ↔
      content ≠ [] ∧ utf8DecodeStrict content = none := by
  unfold decodedRequestContent
  split
  · simp_all
  · constructor
    · rintro ⟨e, he⟩
      refine ⟨by assumption, ?_⟩
      cases h : utf8DecodeStrict content with
      | none => rfl
      | some s => simp [h] at he
    · rintro ⟨-, h⟩
      exact ⟨(), by simp [h]⟩

/-- Inversion of a successful dispatch: if `handle_async_request` returns a
response, then the request body decoded strictly, the inner transport
succeeded, and both the final captured state and the re-emitted response are
determined by the request and the inner response alone. -/
theorem handle_ok_inv {inner : Request → Except String InnerResponse}
    {st st' : TransportState} {request : Request} {resp : Response}
    (h : handle_async_request inner st request = (st', Except.ok resp)) :
    ∃ rc ir,
      decodedRequestContent request.content = Except.ok rc ∧
      inner request = Except.ok ir ∧
      st' = { request_headers := dictOf request.headers
              request_content := rc
              response_headers := dictOf ir.headers
              response_content :=
                some (decodeReplace (ir.encoding.getD Encoding.utf8) ir.body) } ∧
      resp = { status_code := ir.status_code
               headers :=
                 dictOf (ir.headers.filter (fun p => pyLower p.1 != "content-encoding"))
               body := ir.body
               req := request
               extensions := ir.extensions } := by
  unfold handle_async_request at h
  cases hdec : decodedRequestContent request.content with
  | error e => rw [hdec] at h; simp at h
  | ok rc =>
    rw [hdec] at h
    cases hin : inner request with
    | error e => rw [hin] at h; simp at h
    | ok ir =>
      rw [hin] at h
      refine ⟨rc, ir, rfl, rfl, ?_, ?_⟩
      · have := congrArg Prod.fst h
        simpa using this.symm
      · have := congrArg Prod.snd h
        simp at this
        exact this.symm

/-- The captured state after a dispatch whose request body decoded: determined
even when the inner transport fails (the two request fields are overwritten
before the inner call on line 43). -/
theorem handle_inner_error {inner : Request → Except String InnerResponse}
    {st : TransportState} {request : Request} {rc : Option (List Nat)} {e : String}
    (hdec : decodedRequestContent request.content = Except.ok rc)
    (hin : inner request = Except.error e) :
    handle_async_request inner st request =
      ({ st with request_headers := dictOf request.headers, request_content := rc },
        Except.error (DispatchError.innerError e)) := by
  unfold handle_async_request
  rw [hdec, hin]

/-- After any dispatch of a bodiless request (line 37 takes the falsy branch,
before the inner transport is consulted), the captured `request_content` is
`none`. -/
theorem handle_empty_content {inner : Request → Except String InnerResponse}
    {st : TransportState} {request : Request} (hempty : request.content = []) :
    ((handle_async_request inner st request).1).request_content = none := by
  have hdec : decodedRequestContent request.content = Except.ok none := by
    unfold decodedRequestContent
    rw [if_pos hempty]
  unfold handle_async_request
  rw [hdec]
  cases inner request <;> rfl

/-! ### Claims -/

/-- C1: the response re-emitted by a successful `handle_async_request` never
contains a `content-encoding` header: every header name of the re-emitted
response, lowercased, differs from `"content-encoding"`, whatever the
capitalization used by the inner transport's raw response. -/
theorem c1_no_content_encoding_reemitted
    {inner : Request → Except String InnerResponse}
    {st st' : TransportState} {request : Request} {resp : Response}
    (h : handle_async_request inner st request = (st', Except.ok resp)) :
    ∀ p ∈ resp.headers, pyLower p.1 ≠ "content-encoding" := by
  rcases handle_ok_inv h with ⟨rc, ir, -, -, -, hresp⟩
  subst hresp
  intro p hp
  rcases mem_dictOf_key hp with ⟨q, hq, hkey⟩
  have hfilter := (List.mem_filter.mp hq).2
  rw [← hkey]
  simpa [bne_iff_ne] using hfilter

/-- C1 witness: the concrete dispatch of `sampleRequest` through `okInner`
succeeds and its surviving header `x-id` is not `content-encoding`. -/
theorem c1_witness : pyLower (("x-id", "42") : String × String).1 ≠ "content-encoding" :=
  @c1_no_content_encoding_reemitted okInner TransportState.init sampleFinalState
    sampleRequest sampleReemitted rfl
    ("x-id", "42") (by simp [sampleReemitted])

/-- C2: on a successful dispatch the re-emitted response keeps the inner
response's status code, body bytes and extensions, carries the original
request object, and its headers are exactly the inner response's headers with
`content-encoding` removed (case-insensitively). -/
theorem c2_reemitted_frame
    {inner : Request → Except String InnerResponse}
    {st st' : TransportState} {request : Request} {resp : Response}
    {ir : InnerResponse}
    (hin : inner request = Except.ok ir)
    (h : handle_async_request inner st request = (st', Except.ok resp)) :
    resp.status_code = ir.status_code ∧
    resp.body = ir.body ∧
    resp.extensions = ir.extensions ∧
    resp.req = request ∧
    resp.headers =
      dictOf (ir.headers.filter (fun p => pyLower p.1 != "content-encoding")) := by
  rcases handle_ok_inv h with ⟨rc, ir', -, hin', -, hresp⟩
  rw [hin] at hin'
  injection hin' with hir
  subst hir
  subst hresp
  exact ⟨rfl, rfl, rfl, rfl, rfl⟩

/-- C2 witness: the concrete re-emitted response for `sampleRequest` through
`okInner` agrees with `sampleInnerResponse` on status, body, extensions,
carries `sampleRequest`, and keeps exactly the filtered headers. -/
theorem c2_witness :
    sampleReemitted.status_code = sampleInnerResponse.status_code ∧
    sampleReemitted.body = sampleInnerResponse.body ∧
    sampleReemitted.extensions = sampleInnerResponse.extensions ∧
    sampleReemitted.req = sampleRequest ∧
    sampleReemitted.headers =
      dictOf (sampleInnerResponse.headers.filter
        (fun p => pyLower p.1 != "content-encoding")) :=
  @c2_reemitted_frame okInner TransportState.init sampleFinalState
    sampleRequest sampleReemitted sampleInnerResponse rfl rfl

/-- C3 counterexample: the claim "decoding bytes to text never raises during
`handle_async_request`" is false for request bodies: dispatching the concrete
request with body `0xFF` (not UTF-8) through an inner transport that would
succeed makes the dispatch itself fail with a `UnicodeDecodeError` from
line 37's strict decode. -/
theorem c3_counterexample :
    handle_async_request okInner TransportState.init badUtf8Request =
      ({ request_headers := [("Accept", "application/json")]
         request_content := none
         response_headers := []
         response_content := none },
        Except.error DispatchError.unicodeDecodeError) := rfl

/-- C3 amended: response-body decoding (line 47, `errors="replace"`) never
fails, and the only decode failure of `handle_async_request` is line 37's
strict UTF-8 decode of a non-empty request body: the dispatch raises a
`UnicodeDecodeError` exactly when the request body is non-empty and not
well-formed UTF-8. -/
theorem c3_decode_error_iff
    (inner : Request → Except String InnerResponse)
    (st : TransportState) (request : Request) :
    (handle_async_request inner st request).2 =
        Except.error DispatchError.unicodeDecodeError ↔
      request.content ≠ [] ∧ utf8DecodeStrict request.content = none := by
  constructor
  · intro h
    unfold handle_async_request at h
    cases hdec : decodedRequestContent request.content with
    | error e => exact decodedRequestContent_error_iff.mp ⟨e, hdec⟩
    | ok rc =>
      rw [hdec] at h
      cases hin : inner request with
      | error e => rw [hin] at h; simp at h
      | ok ir => rw [hin] at h; simp at h
  · rintro ⟨h1, h2⟩
    have hdec : decodedRequestContent request.content = Except.error () := by
      unfold decodedRequestContent
      rw [if_neg h1, h2]
    unfold handle_async_request
    rw [hdec]

/-- C3 witness: the amended characterisation applied at the concrete body
`0xFF`: its dispatch fails with a `UnicodeDecodeError`. -/
theorem c3_witness :
    (handle_async_request errInner TransportState.init badUtf8Request).2 =
      Except.error DispatchError.unicodeDecodeError :=
  (c3_decode_error_iff errInner TransportState.init badUtf8Request).mpr
    ⟨by decide, rfl⟩

/-- C4: whenever a request with a non-empty body is dispatched and the
dispatch completes, the strict UTF-8 decode of the body bytes succeeded and
the captured `request_content` is exactly that decoding of the bytes sent. -/
theorem c4_request_content_is_utf8_decode
    {inner : Request → Except String InnerResponse}
    {st st' : TransportState} {request : Request} {resp : Response}
    (hne : request.content ≠ [])
    (h : handle_async_request inner st request = (st', Except.ok resp)) :
    (utf8DecodeStrict request.content).isSome ∧
    st'.request_content = utf8DecodeStrict request.content := by
  rcases handle_ok_inv h with ⟨rc, ir, hdec, -, hst, -⟩
  unfold decodedRequestContent at hdec
  rw [if_neg hne] at hdec
  cases hs : utf8DecodeStrict request.content with
  | none => rw [hs] at hdec; simp at hdec
  | some s =>
    rw [hs] at hdec
    simp only [Except.ok.injEq] at hdec
    subst hst
    simp [← hdec]

/-- C4 witness: for the concrete body `"hi"`, the captured `request_content`
is its UTF-8 decoding. -/
theorem c4_witness :
    (utf8DecodeStrict sampleRequest.content).isSome ∧
    sampleFinalState.request_content = utf8DecodeStrict sampleRequest.content :=
  @c4_request_content_is_utf8_decode okInner TransportState.init sampleFinalState
    sampleRequest sampleReemitted (by decide) rfl

/-- C5: dispatching a request without a body leaves `request_content` at the
absent value `none` — in particular it is not an empty string.  This holds for
the state after any dispatch of such a request, completed or not, since line
37 runs before the inner transport is consulted. -/
theorem c5_no_body_request_content_none
    (inner : Request → Except String InnerResponse)
    (st : TransportState) (request : Request)
    (hempty : request.content = []) :
    ((handle_async_request inner st request).1).request_content = none :=
  handle_empty_content hempty

/-- C5 witness: the concrete bodiless request dispatched through `okInner`
leaves `request_content = none`. -/
theorem c5_witness :
    ((handle_async_request okInner TransportState.init emptyBodyRequest).1).request_content
      = none :=
  c5_no_body_request_content_none okInner TransportState.init emptyBodyRequest rfl

/-- C6: whenever the inner transport produces a response and the request body
is absent or valid UTF-8, the dispatch completes — for every response body,
including ill-formed ones, since line 47 decodes with `errors="replace"` —
and the captured `response_content` is the body bytes decoded with the
response's declared encoding, defaulting to UTF-8, in replacement mode. -/
theorem c6_response_content_decoded
    {inner : Request → Except String InnerResponse}
    {st : TransportState} {request : Request} {ir : InnerResponse}
    (hin : inner request = Except.ok ir)
    (hreq : request.content = [] ∨ (utf8DecodeStrict request.content).isSome) :
    ∃ st' resp, handle_async_request inner st request = (st', Except.ok resp) ∧
      st'.response_content =
        some (decodeReplace (ir.encoding.getD Encoding.utf8) ir.body) := by
  have hdec : ∃ rc, decodedRequestContent request.content = Except.ok rc := by
    unfold decodedRequestContent
    by_cases he : request.content = []
    · exact ⟨none, by rw [if_pos he]⟩
    · rcases hreq with h | h
      · exact absurd h he
      · rcases Option.isSome_iff_exists.mp h with ⟨s, hs⟩
        exact ⟨some s, by rw [if_neg he, hs]⟩
  rcases hdec with ⟨rc, hdec⟩
  refine
    ⟨{ request_headers := dictOf request.headers
       request_content := rc
       response_headers := dictOf ir.headers
       response_content :=
         some (decodeReplace (ir.encoding.getD Encoding.utf8) ir.body) },
      { status_code := ir.status_code
        headers := dictOf (ir.headers.filter (fun p => pyLower p.1 != "content-encoding"))
        body := ir.body
        req := request
        extensions := ir.extensions },
      ?_, rfl⟩
  unfold handle_async_request
  rw [hdec, hin]

/-- C6 witness: for the concrete inner response with body `"hello"` and no
declared encoding, the dispatch completes and `response_content` is the
UTF-8 replacement-mode decoding of the body. -/
theorem c6_witness :
    ∃ st' resp,
      handle_async_request okInner TransportState.init sampleRequest =
        (st', Except.ok resp) ∧
      st'.response_content =
        some (decodeReplace (sampleInnerResponse.encoding.getD Encoding.utf8)
          sampleInnerResponse.body) :=
  @c6_response_content_decoded okInner TransportState.init sampleRequest
    sampleInnerResponse rfl (Or.inr (by decide))

/-- C7: a completed dispatch overwrites all four captured fields: the outcome
of `handle_async_request`, captured state included, is the same from any two
prior states, so no history of earlier exchanges survives a completed call. -/
theorem c7_state_overwritten
    {inner : Request → Except String InnerResponse}
    {st1 st2 st' : TransportState} {request : Request} {resp : Response}
    (h : handle_async_request inner st1 request = (st', Except.ok resp)) :
    handle_async_request inner st1 request = handle_async_request inner st2 request := by
  rcases handle_ok_inv h with ⟨rc, ir, hdec, hin, -, -⟩
  unfold handle_async_request
  rw [hdec, hin]

/-- C7 witness: dispatching `sampleRequest` from the fresh state and from a
dirty state left by an earlier exchange gives identical outcomes. -/
theorem c7_witness :
    handle_async_request okInner TransportState.init sampleRequest =
      handle_async_request okInner dirtyState sampleRequest :=
  @c7_state_overwritten okInner TransportState.init dirtyState sampleFinalState
    sampleRequest sampleReemitted rfl

/-- C8: the shim consults the inner transport only through its value at the
unmodified request (two inner transports agreeing there give identical
outcomes), and an inner-transport failure propagates to the caller unchanged,
with no retry and no transformation beyond the propagation itself. -/
theorem c8_delegation_and_propagation
    {inner inner2 : Request → Except String InnerResponse}
    {st : TransportState} {request : Request} {rc : Option (List Nat)}
    {e : String} :
    (decodedRequestContent request.content = Except.ok rc →
      inner request = Except.error e →
      handle_async_request inner st request =
        ({ st with request_headers := dictOf request.headers, request_content := rc },
          Except.error (DispatchError.innerError e))) ∧
    (inner request = inner2 request →
      handle_async_request inner st request =
        handle_async_request inner2 st request) := by
  constructor
  · intro hdec hin
    exact handle_inner_error hdec hin
  · intro hagree
    unfold handle_async_request
    rw [hagree]

/-- C8 witness: the concrete failing inner transport's error `"connection
failed"` propagates unchanged, and replacing it by `errInner2`, which agrees
with it on the dispatched request, leaves the outcome unchanged. -/
theorem c8_witness :
    handle_async_request errInner TransportState.init emptyBodyRequest =
      ({ TransportState.init with
          request_headers := dictOf emptyBodyRequest.headers
          request_content := none },
        Except.error (DispatchError.innerError "connection failed")) ∧
    handle_async_request errInner TransportState.init emptyBodyRequest =
      handle_async_request errInner2 TransportState.init emptyBodyRequest :=
  ⟨(@c8_delegation_and_propagation errInner errInner TransportState.init
      emptyBodyRequest none "connection failed").1 rfl rfl,
    (@c8_delegation_and_propagation errInner errInner2 TransportState.init
      emptyBodyRequest none "connection failed").2 rfl⟩

/-- C9: `async_clients` eagerly returns one pair (SDK client, logging
client): the `LoggingAsyncClient` of the pair is exactly the instance
installed as the SDK client's `http_client`, the SDK client carries the given
endpoint, key and API version, and the logging client is freshly constructed
(construction is pure: no network activity).  In the source the declared
`AsyncGenerator` annotation notwithstanding, the body is an ordinary
synchronous function returning this tuple. -/
theorem c9_async_clients_pair (endpoint key api_version : String) :
    (async_clients endpoint key api_version).1.http_client =
        (async_clients endpoint key api_version).2 ∧
    (async_clients endpoint key api_version).1.azure_endpoint = endpoint ∧
    (async_clients endpoint key api_version).1.api_key = key ∧
    (async_clients endpoint key api_version).1.api_version = api_version ∧
    (async_clients endpoint key api_version).2 = LoggingAsyncClient.new :=
  ⟨rfl, rfl, rfl, rfl, rfl⟩

/-- C10: a request whose body is present but empty is indistinguishable at
line 37 from a request with no body (`request.content` is the falsy `b""` in
both cases): after any dispatch, `request_content` is `none`, and in
particular not the empty string. -/
theorem c10_empty_body_is_absent
    (inner : Request → Except String InnerResponse)
    (st : TransportState) (request : Request)
    (hempty : request.content = []) :
    ((handle_async_request inner st request).1).request_content = none ∧
    ((handle_async_request inner st request).1).request_content ≠ some [] := by
  refine ⟨handle_empty_content hempty, ?_⟩
  rw [handle_empty_content hempty]
  simp

/-- C10 witness: the concrete zero-byte-body request dispatched through the
failing inner transport still captures `request_content = none`, not the
empty string. -/
theorem c10_witness :
    ((handle_async_request errInner TransportState.init emptyBodyRequest).1).request_content
        = none ∧
    ((handle_async_request errInner TransportState.init emptyBodyRequest).1).request_content
        ≠ some [] :=
  c10_empty_body_is_absent errInner TransportState.init emptyBodyRequest rfl

end TraceUtils
